import Mathlib

/-!
# Ghostwriter — verification of the post lifecycle, publish pipeline,
# scheduler and topic selection

Shallow embedding of the backend services and routes of the ghostwriter
repository:

* `src/backend/src/routes/posts.ts` (and its OpenAPI twin) — the post CRUD
  and status endpoints (`bulk-status`, `approve`, `reject`, `schedule`,
  `publish`);
* `src/backend/dist/services/scheduler.js` — `processScheduledPosts`
  (sweep-and-publish), `generateScheduledPosts` / `generateAndSavePost`,
  `syncTrendingTopics`, `refreshAllTokens`, `cleanupOldTopics`;
* `src/backend/src/services/trends.ts` — `scoreTopicForPersona`,
  `getBestTopicForPersona`.

Timestamps are epoch milliseconds modelled as `Nat`.  JavaScript truthiness
on nullable strings (`!x` is true for both `null` and `""`) is modelled
explicitly.  The nondeterminism of `Math.random()` and of the external
Threads API is passed in as explicit parameters (a random seed, a publish
result oracle).
-/

namespace Ghostwriter

/-- Post status enum, from the Prisma `PostStatus` enum used across the
backend (`DRAFT, PENDING, APPROVED, SCHEDULED, PUBLISHED, REJECTED, FAILED`). -/
inductive PostStatus where
  | DRAFT
  | PENDING
  | APPROVED
  | SCHEDULED
  | PUBLISHED
  | REJECTED
  | FAILED
deriving DecidableEq, Repr

/-- Topic type enum, from the Prisma `TopicType` enum (`MANUAL`, `TRENDING`). -/
inductive TopicType where
  | MANUAL
  | TRENDING
deriving DecidableEq, Repr

/-- A post row.  Fields as in the Prisma `Post` model used by
`routes/posts.ts` and `services/scheduler.js`. -/
structure Post where
  id : Nat
  personaId : Nat
  accountId : Option Nat
  content : String
  topic : Option String
  status : PostStatus
  scheduledAt : Option Nat
  publishedAt : Option Nat
  threadsId : Option String
  error : Option String
deriving DecidableEq, Repr

/-- An account row (Threads publishing identity). -/
structure Account where
  id : Nat
  name : String
  threadsUserId : Option String
  accessToken : Option String
  tokenExpiresAt : Option Nat
  active : Bool
deriving DecidableEq, Repr

/-- A persisted topic row. -/
structure Topic where
  id : Nat
  type : TopicType
  source : String
  title : Option String
  description : Option String
  active : Bool
  createdAt : Nat
deriving DecidableEq, Repr

/-- A schedule row (recurring generation policy). -/
structure Schedule where
  id : Nat
  personaId : Nat
  accountId : Nat
  postsPerDay : Nat
  postingTimes : List String
  autoApprove : Bool
  active : Bool
deriving DecidableEq, Repr

/-- A persona, restricted to the fields read by topic scoring
(`scoreTopicForPersona` reads `occupation`, `style`, `name`). -/
structure Persona where
  name : String
  occupation : Option String
  style : String
deriving DecidableEq, Repr

/-- A transient trending topic as produced by `fetchAllTrends` in
`services/trends.ts` (`title`, `source`, optional `url`/`score`/`description`).
The feed score is modelled as an exact rational. -/
structure TrendingTopic where
  title : String
  source : String
  url : Option String
  score : Option Rat
  description : Option String
deriving DecidableEq, Repr

/-- JavaScript falsiness of a nullable string: `!x` is `true` when `x` is
`null`/`undefined` or the empty string. -/
def jsFalsy : Option String → Bool
  | none => true
  | some s => s.isEmpty

/-- JavaScript `a || b` on a nullable string `a` with string default `b`. -/
def jsOrStr : Option String → String → String
  | none, d => d
  | some s, d => if s.isEmpty then d else s

/-- The persisted store: posts, accounts, topics, schedules, plus a fresh-id
counter standing in for the database id generator. -/
structure Store where
  posts : List Post
  accounts : List Account
  topics : List Topic
  schedules : List Schedule
  nextId : Nat
deriving DecidableEq, Repr

/-- Look an account up by id (`prisma.account` relation resolution). -/
def findAccount (accounts : List Account) (id : Nat) : Option Account :=
  accounts.find? (fun a => a.id == id)

/-- Resolve a post's `account` relation (null `accountId` resolves to no
account). -/
def resolveAccount (accounts : List Account) (p : Post) : Option Account :=
  p.accountId.bind (findAccount accounts)

/-- The credential check shared by the sweep and the publish route:
`!post.account?.accessToken || !post.account?.threadsUserId`, negated.
The token expiry and the account's `active` flag are NOT consulted. -/
def credentialOk (a : Option Account) : Bool :=
  match a with
  | none => false
  | some a => !(jsFalsy a.accessToken) && !(jsFalsy a.threadsUserId)

/-- Outcome of one `publishToThreads` call (`services/threads.ts`): either a
remote id, or an error message (the catch branch always produces a message,
falling back to `"Unknown error"`). -/
inductive PubResult where
  | ok (threadsId : String)
  | err (msg : String)
deriving DecidableEq, Repr

/-! ## Post routes (`routes/posts.ts`) -/

/-- `POST /api/posts`: create a post.  The zod schema accepts any
`PostStatus` (defaulting to `DRAFT` when the field is absent);
`publishedAt`, `threadsId` and `error` are not settable at creation. -/
def createPost (st : Store) (personaId : Nat) (accountId : Option Nat)
    (content : String) (topic : Option String) (status : PostStatus)
    (scheduledAt : Option Nat) : Store :=
  { st with
    posts := st.posts ++
      [{ id := st.nextId, personaId := personaId, accountId := accountId,
         content := content, topic := topic, status := status,
         scheduledAt := scheduledAt, publishedAt := none, threadsId := none,
         error := none }],
    nextId := st.nextId + 1 }

/-- Apply an update function to every post row with the given id
(`prisma.post.update({ where: { id } })`; on a missing id Prisma throws and
the store is unchanged, which the row-wise map also models). -/
def updatePostRow (f : Post → Post) (id : Nat) (posts : List Post) : List Post :=
  posts.map (fun p => if p.id == id then f p else p)

/-- Partial update payload for `PUT /api/posts/:id`.  Each field is present
or absent; `scheduledAt` can only be set to a value, never cleared
(`data.scheduledAt ? new Date(data.scheduledAt) : undefined`). -/
structure PostUpdate where
  personaId : Option Nat := none
  accountId : Option (Option Nat) := none
  content : Option String := none
  topic : Option String := none
  status : Option PostStatus := none
  scheduledAt : Option Nat := none
deriving Repr

/-- The row change performed by `PUT /api/posts/:id`. -/
def applyPostUpdate (u : PostUpdate) (p : Post) : Post :=
  { p with
    personaId := u.personaId.getD p.personaId,
    accountId := u.accountId.getD p.accountId,
    content := u.content.getD p.content,
    topic := (match u.topic with | none => p.topic | some t => some t),
    status := u.status.getD p.status,
    scheduledAt := (match u.scheduledAt with | none => p.scheduledAt | some t => some t) }

/-- `PUT /api/posts/:id`. -/
def updatePost (st : Store) (id : Nat) (u : PostUpdate) : Store :=
  { st with posts := updatePostRow (applyPostUpdate u) id st.posts }

/-- `DELETE /api/posts/:id`. -/
def deletePost (st : Store) (id : Nat) : Store :=
  { st with posts := st.posts.filter (fun p => p.id != id) }

/-- `POST /api/posts/bulk-status`: `updateMany({ where: { id: { in: ids } },
data: { status } })` — sets the requested status on every listed post with no
check of the current status. -/
def bulkStatus (st : Store) (ids : List Nat) (status : PostStatus) : Store :=
  { st with
    posts := st.posts.map (fun p =>
      if ids.contains p.id then { p with status := status } else p) }

/-- `POST /api/posts/:id/approve`: unconditionally sets `status: 'APPROVED'`. -/
def approvePost (st : Store) (id : Nat) : Store :=
  { st with
    posts := updatePostRow (fun p => { p with status := .APPROVED }) id st.posts }

/-- `POST /api/posts/:id/reject`: unconditionally sets `status: 'REJECTED'`. -/
def rejectPost (st : Store) (id : Nat) : Store :=
  { st with
    posts := updatePostRow (fun p => { p with status := .REJECTED }) id st.posts }

/-- `PATCH /api/posts/:id/schedule` (`routes/posts.ts`): sets
`status: 'SCHEDULED'`, the given `scheduledAt` and `accountId`,
regardless of the current status. -/
def schedulePost (st : Store) (id : Nat) (scheduledAt : Nat) (accountId : Nat) : Store :=
  { st with
    posts := updatePostRow
      (fun p => { p with
                    status := .SCHEDULED,
                    scheduledAt := some scheduledAt,
                    accountId := some accountId }) id st.posts }

/-- Outcome reported by the `POST /api/posts/:id/publish` route. -/
inductive PublishNowOutcome where
  /-- 404 `Post not found`. -/
  | notFound
  /-- 400 `No Threads account configured for this post`; thrown before any
  update or network call. -/
  | noAccount
  /-- the post was published. -/
  | published
  /-- the publish failed; a 500 is thrown after the post is updated. -/
  | failedErr
deriving DecidableEq, Repr

/-- `POST /api/posts/:id/publish` ("publish now"): looks the post up, checks
the credentials, publishes, then records the result.  Returns the new store,
the HTTP-level outcome, and whether a network call was made. -/
def publishNow (st : Store) (id : Nat) (pub : PubResult) (now : Nat) :
    Store × PublishNowOutcome × Bool :=
  match st.posts.find? (fun p => p.id == id) with
  | none => (st, .notFound, false)
  | some p =>
    if credentialOk (resolveAccount st.accounts p) then
      match pub with
      | .ok tid =>
        ({ st with
           posts := updatePostRow
             (fun q => { q with
                           status := .PUBLISHED,
                           publishedAt := some now,
                           threadsId := some tid }) id st.posts },
         .published, true)
      | .err m =>
        ({ st with
           posts := updatePostRow
             (fun q => { q with status := .FAILED, error := some m }) id st.posts },
         .failedErr, true)
    else
      (st, .noAccount, false)

/-! ## Sweep-and-publish (`processScheduledPosts` in
`dist/services/scheduler.js`) -/

/-- The sweep's selection predicate: `status: 'SCHEDULED', scheduledAt:
{ lte: now }` (a null `scheduledAt` never satisfies `lte`). -/
def isDue (now : Nat) (p : Post) : Bool :=
  p.status == .SCHEDULED &&
    (match p.scheduledAt with
     | some t => decide (t ≤ now)
     | none => false)

/-- One iteration of the sweep loop on a single selected-or-not post row.
Returns the updated row and whether `publishToThreads` was invoked for it.
`pub` is the outcome of the (single) network call for a given post id;
`pubTime` is the `new Date()` written into `publishedAt` on success. -/
def sweepStep (accounts : List Account) (pub : Nat → PubResult)
    (pubTime now : Nat) (p : Post) : Post × Bool :=
  if isDue now p then
    if credentialOk (resolveAccount accounts p) then
      match pub p.id with
      | .ok tid =>
        ({ p with
             status := .PUBLISHED,
             publishedAt := some pubTime,
             threadsId := some tid }, true)
      | .err m => ({ p with status := .FAILED, error := some m }, true)
    else
      ({ p with
           status := .FAILED,
           error := some "No valid Threads account configured" }, false)
  else
    (p, false)

/-- The sweep applied to the whole post table. -/
def sweepPosts (accounts : List Account) (pub : Nat → PubResult)
    (pubTime now : Nat) (posts : List Post) : List Post :=
  posts.map (fun p => (sweepStep accounts pub pubTime now p).1)

/-- The ids of the posts for which the sweep invoked `publishToThreads`. -/
def sweepCalledIds (accounts : List Account) (pub : Nat → PubResult)
    (pubTime now : Nat) (posts : List Post) : List Nat :=
  (posts.filter (fun p => (sweepStep accounts pub pubTime now p).2)).map (fun p => p.id)

/-- The sweep as a store operation. -/
def sweepStore (st : Store) (pub : Nat → PubResult) (pubTime now : Nat) : Store :=
  { st with posts := sweepPosts st.accounts pub pubTime now st.posts }

/-! ## Topic selection (`services/trends.ts`) -/

/-- JavaScript `s.toLowerCase()`, modelled character-wise. -/
def jsToLower (s : String) : String :=
  String.mk (s.data.map Char.toLower)

/-- JavaScript `s.includes(pat)`: `pat` occurs as a contiguous substring of
`s` (the empty pattern always matches). -/
def strContains (s pat : String) : Bool :=
  decide (pat.data <:+: s.data)

/-- The loose repetition filter of `getBestTopicForPersona`:
`t.title.toLowerCase().includes(e.toLowerCase()) ||
 e.toLowerCase().includes(t.title.toLowerCase())`. -/
def matchesExclusion (title e : String) : Bool :=
  strContains (jsToLower title) (jsToLower e) ||
    strContains (jsToLower e) (jsToLower title)

/-- `keywords.some(k => text.includes(k))` as used by `scoreTopicForPersona`. -/
def checkKeywords (text : String) (keywords : List String) : Bool :=
  keywords.any (fun k => strContains text k)

def techKeywords : List String :=
  ["ai", "tech", "software", "computer", "digital", "internet", "app"]
def scienceKeywords : List String :=
  ["science", "research", "study", "discovery", "space", "physics"]
def businessKeywords : List String :=
  ["business", "economy", "market", "company", "startup", "money"]
def philosophyKeywords : List String :=
  ["life", "death", "meaning", "society", "human", "freedom", "truth"]
def politicsKeywords : List String :=
  ["government", "policy", "election", "law", "rights", "democracy"]
def universalKeywords : List String :=
  ["human", "future", "change", "world", "new"]
def engagingKeywords : List String :=
  ["controversy", "debate", "vs", "should", "why", "how"]

/-- `scoreTopicForPersona`: base score `topic.score || 50` (JS `||`, so a
feed score of 0 also falls back to 50), then a chain of multiplicative
keyword-affinity boosts.  The JS floating-point products are modelled as
exact rationals. -/
def scoreTopicForPersona (topic : TrendingTopic) (persona : Persona) : Rat :=
  let base : Rat :=
    match topic.score with
    | some s => if s = 0 then 50 else s
    | none => 50
  let topicLower := jsToLower topic.title
  let styleLower := jsToLower persona.style
  let occupationLower := jsToLower (persona.occupation.getD "")
  let s1 := if strContains occupationLower "scientist" &&
               checkKeywords topicLower scienceKeywords then base * (3/2) else base
  let s2 := if strContains occupationLower "engineer" &&
               checkKeywords topicLower techKeywords then s1 * (3/2) else s1
  let s3 := if strContains occupationLower "philosopher" &&
               checkKeywords topicLower philosophyKeywords then s2 * (3/2) else s2
  let s4 := if strContains occupationLower "business" &&
               checkKeywords topicLower businessKeywords then s3 * (3/2) else s3
  let s5 := if strContains styleLower "politic" &&
               checkKeywords topicLower politicsKeywords then s4 * (13/10) else s4
  let s6 := if checkKeywords topicLower universalKeywords then s5 * (6/5) else s5
  let s7 := if checkKeywords topicLower engagingKeywords then s6 * (11/10) else s6
  s7

/-- The repetition filter applied to the freshly fetched pool:
`trends.filter(t => !excludeTitles.some(e => ...))`. -/
def filterExcluded (excludeTitles : List String) (trends : List TrendingTopic) :
    List TrendingTopic :=
  trends.filter (fun t => ! excludeTitles.any (fun e => matchesExclusion t.title e))

/-- `available.map(topic => ({ topic, score: scoreTopicForPersona(topic,
persona) }))`. -/
def scoredCandidates (persona : Persona) (available : List TrendingTopic) :
    List (TrendingTopic × Rat) :=
  available.map (fun t => (t, scoreTopicForPersona t persona))

/-- `scored.sort((a, b) => b.score - a.score)` followed by `.slice(0, 5)`:
the five highest-scored candidates, descending (sorting modelled by a stable
insertion sort under `≥` on scores). -/
def topCandidates (persona : Persona) (available : List TrendingTopic) :
    List (TrendingTopic × Rat) :=
  ((scoredCandidates persona available).insertionSort (fun a b => a.2 ≥ b.2)).take 5

/-- `getBestTopicForPersona(persona, excludeTitles)`, with the fetched pool
`trends` and the `Math.random()` draw `rnd` made explicit (`Math.floor(rnd *
topN.length)` is modelled as `rnd % topN.length`). -/
def getBestTopicForPersona (persona : Persona) (excludeTitles : List String)
    (trends : List TrendingTopic) (rnd : Nat) : Option TrendingTopic :=
  if trends.isEmpty then none
  else
    if (filterExcluded excludeTitles trends).isEmpty then trends.head?
    else
      ((topCandidates persona (filterExcluded excludeTitles trends))[rnd %
          (topCandidates persona (filterExcluded excludeTitles trends)).length]?).map
        (fun x => x.1)

/-! ## Scheduled generation (`generateScheduledPosts` / `generateAndSavePost`
in `dist/services/scheduler.js`) -/

/-- `now.getUTCHours().toString().padStart(2, '0')`. -/
def pad2 (n : Nat) : String :=
  if n < 10 then "0" ++ toString n else toString n

/-- The coarse hour-slot label `"HH:00"` the generation tick matches against
`schedule.postingTimes`. -/
def hourSlot (utcHour : Nat) : String :=
  pad2 utcHour ++ ":00"

/-- `generateAndSavePost(schedule, topicSource, topicTitle)` with the
generated `content`, the database id and the jitter draw made explicit.
The jitter is `Math.floor(Math.random() * 10) * 60 * 1000` (0–9 whole
minutes), modelled as `(rnd % 10) * 60000`.  The created post is `SCHEDULED`
at `now + jitter` when the schedule auto-approves, else `PENDING` with no
`scheduledAt`; its topic is `topicTitle || topicSource`. -/
def generateAndSavePost (now rnd : Nat) (content : String) (id : Nat)
    (s : Schedule) (topicSource : String) (topicTitle : Option String) : Post :=
  let delay := (rnd % 10) * 60 * 1000
  { id := id, personaId := s.personaId, accountId := some s.accountId,
    content := content,
    topic := some (jsOrStr topicTitle topicSource),
    status := if s.autoApprove then .SCHEDULED else .PENDING,
    scheduledAt := if s.autoApprove then some (now + delay) else none,
    publishedAt := none, threadsId := none, error := none }

/-- Which topic the generation tick settled on for one schedule:
the best trending topic, a random manual fallback topic, or nothing
(both pools empty — the cycle for this schedule is skipped). -/
inductive TopicChoice where
  | trending (t : TrendingTopic)
  | manual (source : String) (title : Option String)
  | noneAvailable
deriving Repr

/-- One schedule's generation cycle given its topic choice and the outcome
of the AI call (`none` models a thrown `GenerationError`, caught by the
per-schedule `try`/`catch`: no post is created). -/
def generateForSchedule (now : Nat) (choice : TopicChoice)
    (genResult : Option String) (rnd : Nat) (id : Nat) (s : Schedule) :
    Option Post :=
  match choice with
  | .noneAvailable => none
  | .trending t =>
    genResult.map (fun content =>
      generateAndSavePost now rnd content id s t.title (some t.title))
  | .manual src title =>
    genResult.map (fun content =>
      generateAndSavePost now rnd content id s src title)

/-- The schedules selected by the generation tick:
`active: true, postingTimes: { has: currentHour }`. -/
def selectedSchedules (utcHour : Nat) (schedules : List Schedule) : List Schedule :=
  schedules.filter (fun s => s.active && s.postingTimes.contains (hourSlot utcHour))

/-- One loop iteration of the generation tick: append the created post, if
any (a skipped or failed cycle leaves the store unchanged — the loop
continues to the next schedule). -/
def generateStep (now : Nat) (choice : Nat → TopicChoice)
    (gen : Nat → Option String) (rnd : Nat → Nat) (acc : Store) (s : Schedule) :
    Store :=
  match generateForSchedule now (choice s.id) (gen s.id) (rnd s.id) acc.nextId s with
  | none => acc
  | some p => { acc with posts := acc.posts ++ [p], nextId := acc.nextId + 1 }

/-- The whole generation tick: for each selected schedule, run one
generation cycle and append the created post (if any).  The oracles
`choice`, `gen` and `rnd` are indexed by schedule id. -/
def generateTick (now utcHour : Nat) (choice : Nat → TopicChoice)
    (gen : Nat → Option String) (rnd : Nat → Nat) (st : Store) : Store :=
  (selectedSchedules utcHour st.schedules).foldl (generateStep now choice gen rnd) st

/-! ## Topic pool maintenance (`syncTrendingTopics`, `cleanupOldTopics` in
`dist/services/scheduler.js`; `DELETE /cleanup` in the trends routes) -/

/-- One iteration of the sync loop: skip when a topic with
`source = trend.title, type: 'TRENDING'` already exists, else create a
`TRENDING` topic row. -/
def syncOneTrend (now : Nat) (st : Store) (trend : TrendingTopic) : Store :=
  if (st.topics.find? (fun t =>
        t.source == trend.title && t.type == .TRENDING)).isSome then
    st
  else
    { st with
      topics := st.topics ++
        [{ id := st.nextId, type := .TRENDING, source := trend.title,
           title := some trend.title, description := trend.description,
           active := true, createdAt := now }],
      nextId := st.nextId + 1 }

/-- `syncTrendingTopics`: persist the fetched trends, deduplicating against
the existing rows. -/
def syncTrendingTopics (now : Nat) (trends : List TrendingTopic) (st : Store) : Store :=
  trends.foldl (syncOneTrend now) st

/-- Seven days in milliseconds — the retention window used by
`cleanupOldTopics` (`weekAgo.setDate(weekAgo.getDate() - 7)`). -/
def weekMs : Nat := 7 * 24 * 60 * 60 * 1000

/-- The deletion predicate of `cleanupOldTopics`:
`type: 'TRENDING', createdAt: { lt: weekAgo }`. -/
def staleTrending (now : Nat) (t : Topic) : Bool :=
  t.type == .TRENDING && decide (t.createdAt < now - weekMs)

/-- `cleanupOldTopics` (same `deleteMany` as the `DELETE /cleanup` route):
returns the surviving topic rows and the deleted count. -/
def cleanupOldTopics (now : Nat) (topics : List Topic) : List Topic × Nat :=
  (topics.filter (fun t => ! staleTrending now t), topics.countP (staleTrending now ·))

/-- `cleanupOldTopics` as a store operation. -/
def cleanupStore (now : Nat) (st : Store) : Store :=
  { st with topics := (cleanupOldTopics now st.topics).1 }

/-- `refreshAllTokens`: for every active account with a token and an expiry
within 7 days, replace the token (the refresh call's outcome per account id
is the oracle; `none` models a thrown refresh error, caught and skipped). -/
def refreshAllTokens (now : Nat) (refresh : Nat → Option (String × Nat))
    (st : Store) : Store :=
  { st with
    accounts := st.accounts.map (fun a =>
      if a.active && a.accessToken.isSome && a.tokenExpiresAt.isSome &&
         decide (a.tokenExpiresAt.getD 0 < now + weekMs) then
        match refresh a.id with
        | some (tok, expiresIn) =>
          { a with accessToken := some tok, tokenExpiresAt := some (now + expiresIn * 1000) }
        | none => a
      else a) }

/-! ## Operation sequences -/

/-- One API operation on the post table, as exposed by the post routes. -/
inductive Op where
  | create (personaId : Nat) (accountId : Option Nat) (content : String)
      (topic : Option String) (status : PostStatus) (scheduledAt : Option Nat)
  | update (id : Nat) (u : PostUpdate)
  | bulk (ids : List Nat) (status : PostStatus)
  | approve (id : Nat)
  | reject (id : Nat)
  | schedule (id : Nat) (scheduledAt : Nat) (accountId : Nat)
  | publish (id : Nat) (pub : PubResult) (now : Nat)
  | sweep (pub : Nat → PubResult) (pubTime now : Nat)
  | delete (id : Nat)

/-- Interpret one operation on the store. -/
def applyOp : Op → Store → Store
  | .create personaId accountId content topic status scheduledAt, st =>
    createPost st personaId accountId content topic status scheduledAt
  | .update id u, st => updatePost st id u
  | .bulk ids s, st => bulkStatus st ids s
  | .approve id, st => approvePost st id
  | .reject id, st => rejectPost st id
  | .schedule id t a, st => schedulePost st id t a
  | .publish id pub now, st => (publishNow st id pub now).1
  | .sweep pub pubTime now, st => sweepStore st pub pubTime now
  | .delete id, st => deletePost st id

/-- Interpret a sequence of operations, first operation first. -/
def applyOps (ops : List Op) (st : Store) : Store :=
  ops.foldl (fun acc op => applyOp op acc) st

/-- One scheduler tick (the five periodic tasks of `initScheduler`). -/
inductive Tick where
  | sweepT (pub : Nat → PubResult) (pubTime now : Nat)
  | generateT (now utcHour : Nat) (choice : Nat → TopicChoice)
      (gen : Nat → Option String) (rnd : Nat → Nat)
  | syncT (now : Nat) (trends : List TrendingTopic)
  | refreshT (now : Nat) (refresh : Nat → Option (String × Nat))
  | cleanupT (now : Nat)

/-- Interpret one scheduler tick on the store. -/
def applyTick : Tick → Store → Store
  | .sweepT pub pubTime now, st => sweepStore st pub pubTime now
  | .generateT now utcHour choice gen rnd, st => generateTick now utcHour choice gen rnd st
  | .syncT now trends, st => syncTrendingTopics now trends st
  | .refreshT now refresh, st => refreshAllTokens now refresh st
  | .cleanupT now, st => cleanupStore now st

/-- Interpret a sequence of scheduler ticks, first tick first. -/
def applyTicks (ticks : List Tick) (st : Store) : Store :=
  ticks.foldl (fun acc t => applyTick t acc) st

/-! ## The §4.3 state machine (spec side) -/

/-- Modelled from the spec, for refinement comparison only: the legal status
transitions of the §4.3 post lifecycle state machine (deletion excluded — it
is not a status change). -/
def specLegalEdge : PostStatus → PostStatus → Bool
  | .DRAFT, .APPROVED => true
  | .PENDING, .APPROVED => true
  | .DRAFT, .REJECTED => true
  | .PENDING, .REJECTED => true
  | .APPROVED, .SCHEDULED => true
  | .SCHEDULED, .PUBLISHED => true
  | .SCHEDULED, .FAILED => true
  | .APPROVED, .PUBLISHED => true
  | .APPROVED, .FAILED => true
  | _, _ => false

/-- The §4.3 / §8 post field invariant claimed by the spec:
`publishedAt` set ⇔ status = PUBLISHED; `error` set ⇒ status = FAILED. -/
def postFieldInvariant (p : Post) : Prop :=
  (p.publishedAt ≠ none ↔ p.status = .PUBLISHED) ∧
  (p.error ≠ none → p.status = .FAILED)

instance (p : Post) : Decidable (postFieldInvariant p) := by
  unfold postFieldInvariant; infer_instance

/-! ## Concrete fixtures used by witnesses and counterexamples -/

/-- The empty store. -/
def emptyStore : Store :=
  { posts := [], accounts := [], topics := [], schedules := [], nextId := 0 }

/-- An account with no access token. -/
def acctNoTok : Account :=
  { id := 1, name := "a", threadsUserId := some "u", accessToken := none,
    tokenExpiresAt := none, active := true }

/-- An active account whose token is present but expired. -/
def acctExpiredTok : Account :=
  { id := 1, name := "a", threadsUserId := some "u", accessToken := some "tok",
    tokenExpiresAt := some 5, active := true }

/-- An inactive account whose token is present but expired. -/
def acctInactiveExpired : Account :=
  { id := 1, name := "a", threadsUserId := some "u", accessToken := some "tok",
    tokenExpiresAt := some 5, active := false }

/-- A post in `SCHEDULED`, due at time 10, owned by account 1. -/
def post0 : Post :=
  { id := 0, personaId := 1, accountId := some 1, content := "hello",
    topic := none, status := .SCHEDULED, scheduledAt := some 10,
    publishedAt := none, threadsId := none, error := none }

/-! ## Shared helper lemmas -/

/-- Filtered-out length plus matching count recovers the original length. -/
theorem length_filter_not_add_countP (p : α → Bool) (l : List α) :
    (l.filter (fun x => ! p x)).length + l.countP p = l.length := by
  induction l with
  | nil => rfl
  | cons a t ih =>
    by_cases h : p a = true <;>
      simp [List.filter_cons, List.countP_cons, h] <;> omega

/-- A post processed by the sweep (due at sweep time) ends in `PUBLISHED` or
`FAILED` — in particular it leaves `SCHEDULED`. -/
theorem sweepStep_status_of_due (accounts : List Account) (pub : Nat → PubResult)
    (pubTime now : Nat) (p : Post) (hdue : isDue now p = true) :
    (sweepStep accounts pub pubTime now p).1.status = .PUBLISHED ∨
    (sweepStep accounts pub pubTime now p).1.status = .FAILED := by
  unfold sweepStep
  rw [if_pos hdue]
  by_cases hcred : credentialOk (resolveAccount accounts p) = true
  · rw [if_pos hcred]
    cases pub p.id with
    | ok tid => left; rfl
    | err m => right; rfl
  · rw [if_neg hcred]
    right; rfl

/-- The sweep does nothing to a post that is not due: the row is returned
unchanged and no network call is made. -/
theorem sweepStep_not_due (accounts : List Account) (pub : Nat → PubResult)
    (pubTime now : Nat) (p : Post) (h : isDue now p = false) :
    sweepStep accounts pub pubTime now p = (p, false) := by
  unfold sweepStep
  rw [h]
  rfl

/-- A post whose status is not `SCHEDULED` is never due. -/
theorem isDue_eq_false_of_status (now : Nat) (p : Post)
    (h : p.status ≠ .SCHEDULED) : isDue now p = false := by
  unfold isDue
  have : (p.status == .SCHEDULED) = false := by
    cases hs : p.status <;> simp_all
  rw [this, Bool.false_and]

/-- The sweep's no-credential branch: a due post without a usable credential
is failed with the descriptive error and no network call. -/
theorem sweepStep_no_credential (accounts : List Account) (pub : Nat → PubResult)
    (pubTime now : Nat) (p : Post) (hdue : isDue now p = true)
    (hcred : credentialOk (resolveAccount accounts p) = false) :
    sweepStep accounts pub pubTime now p =
      ({ p with
           status := .FAILED,
           error := some "No valid Threads account configured" }, false) := by
  unfold sweepStep
  rw [if_pos hdue, if_neg (by simp [hcred])]

/-! ## C9 — topic cleanup retention -/

/-- The surviving rows of `cleanupOldTopics` are the filter of the table. -/
theorem cleanupOldTopics_fst (now : Nat) (topics : List Topic) :
    (cleanupOldTopics now topics).1 = topics.filter (fun t => ! staleTrending now t) :=
  rfl

/-- `staleTrending` as a proposition. -/
theorem staleTrending_eq_true_iff (now : Nat) (t : Topic) :
    staleTrending now t = true ↔ (t.type = .TRENDING ∧ t.createdAt < now - weekMs) := by
  unfold staleTrending
  rw [Bool.and_eq_true, beq_iff_eq, decide_eq_true_iff]

/-- C9: topic cleanup with the 7-day retention deletes exactly the `TRENDING`
topics whose `createdAt` is older than 7 days: a row survives iff it was
present and is not a stale trending row, every `MANUAL` row survives
unchanged regardless of age, and the deleted count accounts for every row
that disappeared. -/
theorem c9_cleanup_deletes_only_stale_trending (now : Nat) (topics : List Topic) :
    (∀ t : Topic, t ∈ (cleanupOldTopics now topics).1 ↔
      (t ∈ topics ∧ ¬ (t.type = .TRENDING ∧ t.createdAt < now - weekMs))) ∧
    (∀ t : Topic, t ∈ topics → t.type = .MANUAL →
      t ∈ (cleanupOldTopics now topics).1) ∧
    (cleanupOldTopics now topics).1.length + (cleanupOldTopics now topics).2
      = topics.length := by
  refine ⟨?_, ?_, ?_⟩
  · intro t
    rw [cleanupOldTopics_fst, List.mem_filter, Bool.not_eq_true',
      ← Bool.not_eq_true (staleTrending now t), staleTrending_eq_true_iff]
  · intro t ht hman
    rw [cleanupOldTopics_fst, List.mem_filter]
    refine ⟨ht, ?_⟩
    rw [Bool.not_eq_true', ← Bool.not_eq_true (staleTrending now t),
      staleTrending_eq_true_iff]
    rintro ⟨htr, _⟩
    rw [hman] at htr
    exact absurd htr (by decide)
  · exact length_filter_not_add_countP (staleTrending now) topics

/-- Witness for C9 at a concrete topic table: an old `MANUAL` topic survives
the cleanup while an old `TRENDING` topic does not. -/
theorem c9_cleanup_witness :
    (let oldManual : Topic :=
      { id := 0, type := .MANUAL, source := "curated", title := some "m",
        description := none, active := true, createdAt := 0 }
     let oldTrending : Topic :=
      { id := 1, type := .TRENDING, source := "feed", title := some "t",
        description := none, active := true, createdAt := 0 }
     oldManual ∈ (cleanupOldTopics (2 * weekMs) [oldManual, oldTrending]).1 ∧
     ¬ oldTrending ∈ (cleanupOldTopics (2 * weekMs) [oldManual, oldTrending]).1) := by
  refine ⟨?_, ?_⟩
  · exact (c9_cleanup_deletes_only_stale_trending (2 * weekMs) _).2.1 _
      (by decide) (by decide)
  · intro hmem
    have h := ((c9_cleanup_deletes_only_stale_trending (2 * weekMs) _).1 _).mp hmem
    exact h.2 (by decide)

/-! ## C10 — the sweep ignores the account's `active` flag and token expiry -/

/-- C10: for a due `SCHEDULED` post whose account resolves with a non-null
(truthy) access token and Threads user id, the sweep invokes
`publishToThreads` — even when the account is inactive and its
`tokenExpiresAt` lies in the past — and the post ends `PUBLISHED` or
`FAILED` according to the call's result, not via the no-credential branch. -/
theorem c10_sweep_ignores_expiry_and_active
    (accounts : List Account) (pub : Nat → PubResult) (pubTime now : Nat)
    (p : Post) (a : Account) (tok uid : String) (exp : Nat)
    (hdue : isDue now p = true)
    (hres : resolveAccount accounts p = some a)
    (htok : a.accessToken = some tok) (htokne : tok ≠ "")
    (huid : a.threadsUserId = some uid) (huidne : uid ≠ "")
    (hinactive : a.active = false)
    (hexp : a.tokenExpiresAt = some exp) (hexppast : exp < now) :
    (sweepStep accounts pub pubTime now p).2 = true ∧
    ((sweepStep accounts pub pubTime now p).1.status = .PUBLISHED ∨
     (sweepStep accounts pub pubTime now p).1.status = .FAILED) := by
  have htokE : tok.isEmpty = false :=
    Bool.eq_false_iff.mpr (fun h => htokne ((String.isEmpty_iff tok).mp h))
  have huidE : uid.isEmpty = false :=
    Bool.eq_false_iff.mpr (fun h => huidne ((String.isEmpty_iff uid).mp h))
  have hcred : credentialOk (resolveAccount accounts p) = true := by
    rw [hres]
    simp [credentialOk, jsFalsy, htok, huid, htokE, huidE]
  refine ⟨?_, sweepStep_status_of_due accounts pub pubTime now p hdue⟩
  unfold sweepStep
  rw [if_pos hdue, if_pos hcred]
  cases pub p.id <;> rfl

/-- Witness for C10: a due post on an inactive account with an expired (but
present) token is still attempted and is published when the call succeeds. -/
theorem c10_witness :
    isDue 100 post0 = true ∧
    resolveAccount [acctInactiveExpired] post0 = some acctInactiveExpired ∧
    (sweepStep [acctInactiveExpired] (fun _ => .ok "tid") 100 100 post0).2 = true ∧
    ((sweepStep [acctInactiveExpired] (fun _ => .ok "tid") 100 100 post0).1.status
        = .PUBLISHED ∨
     (sweepStep [acctInactiveExpired] (fun _ => .ok "tid") 100 100 post0).1.status
        = .FAILED) := by
  refine ⟨by decide, by decide, ?_⟩
  exact c10_sweep_ignores_expiry_and_active [acctInactiveExpired] (fun _ => .ok "tid")
    100 100 post0 acctInactiveExpired "tok" "u" 5 (by decide) (by decide) (by decide)
    (by decide) (by decide) (by decide) (by decide) (by decide) (by decide)

/-! ## C4 — sweep fail-fast on unusable credentials -/

/-- C4 as stated is refuted: the sweep never consults the token's expiry.
A due post whose account's token is present but expired (here
`tokenExpiresAt = 5` at sweep time 100) is not transitioned to `FAILED`
without a network call — the publish is attempted and, succeeding here, the
post ends `PUBLISHED`. -/
theorem c4_counterexample :
    acctExpiredTok.tokenExpiresAt = some 5 ∧ (5 : Nat) < 100 ∧
    isDue 100 post0 = true ∧
    sweepStep [acctExpiredTok] (fun _ => .ok "tid") 100 100 post0 =
      ({ post0 with
           status := .PUBLISHED, publishedAt := some 100,
           threadsId := some "tid" }, true) ∧
    (sweepStep [acctExpiredTok] (fun _ => .ok "tid") 100 100 post0).1.status
      ≠ .FAILED := by
  refine ⟨rfl, by decide, by decide, by decide, by decide⟩

/-- C4 amended: for every due `SCHEDULED` post whose account does not resolve
with a truthy access token and Threads user id (expiry is NOT consulted), the
sweep transitions the post to `FAILED` with the descriptive error
`"No valid Threads account configured"` and makes no network call. -/
theorem c4_sweep_fails_fast_without_credential
    (accounts : List Account) (pub : Nat → PubResult) (pubTime now : Nat)
    (p : Post) (hdue : isDue now p = true)
    (hcred : credentialOk (resolveAccount accounts p) = false) :
    sweepStep accounts pub pubTime now p =
      ({ p with
           status := .FAILED,
           error := some "No valid Threads account configured" }, false) :=
  sweepStep_no_credential accounts pub pubTime now p hdue hcred

/-- Witness for the amended C4: a due post whose account has a null token is
failed with the descriptive error and no call is made. -/
theorem c4_witness :
    isDue 100 post0 = true ∧
    credentialOk (resolveAccount [acctNoTok] post0) = false ∧
    sweepStep [acctNoTok] (fun _ => .ok "tid") 100 100 post0 =
      ({ post0 with
           status := .FAILED,
           error := some "No valid Threads account configured" }, false) := by
  refine ⟨by decide, by decide, ?_⟩
  exact c4_sweep_fails_fast_without_credential [acctNoTok] (fun _ => .ok "tid")
    100 100 post0 (by decide) (by decide)

/-! ## C5 — fail-fast on missing credentials, both publish paths -/

/-- C5 as stated is refuted on the "publish now" path: publishing a post
whose account has a null access token throws the 400 `No Threads account
configured` error and makes no network call, but it does NOT transition the
post to `FAILED` nor record an error on it — the store is returned
unchanged, the post still `APPROVED` with a null `error`. -/
theorem c5_counterexample :
    (let stC5 : Store :=
      { posts := [{ post0 with status := .APPROVED }], accounts := [acctNoTok],
        topics := [], schedules := [], nextId := 2 }
     publishNow stC5 0 (.ok "tid") 100 = (stC5, .noAccount, false) ∧
     (publishNow stC5 0 (.ok "tid") 100).1.posts.map (fun p => (p.status, p.error))
       = [(.APPROVED, none)] ∧
     ∀ q ∈ (publishNow stC5 0 (.ok "tid") 100).1.posts, q.status ≠ .FAILED) := by
  refine ⟨by decide, by decide, by decide⟩

/-- C5 amended: on a missing (falsy) credential both paths fail fast with a
`NoCredential`-style error and make no network call; the sweep path records
the error on the post and transitions it to `FAILED`, while the "publish
now" route merely reports `noAccount` and leaves the store unchanged. -/
theorem c5_publish_fail_fast_without_credential
    (st : Store) (id : Nat) (pub : PubResult) (now : Nat) (p : Post)
    (hfind : st.posts.find? (fun q => q.id == id) = some p)
    (hcred : credentialOk (resolveAccount st.accounts p) = false) :
    publishNow st id pub now = (st, .noAccount, false) ∧
    (∀ (accounts : List Account) (pub2 : Nat → PubResult) (pubTime now2 : Nat)
       (q : Post), isDue now2 q = true →
       credentialOk (resolveAccount accounts q) = false →
       sweepStep accounts pub2 pubTime now2 q =
         ({ q with
              status := .FAILED,
              error := some "No valid Threads account configured" }, false)) := by
  constructor
  · unfold publishNow
    rw [hfind]
    simp only [hcred, Bool.false_eq_true, if_false]
  · intro accounts pub2 pubTime now2 q hdue hc
    exact sweepStep_no_credential accounts pub2 pubTime now2 q hdue hc

/-- Witness for the amended C5 at a concrete store: the route reports
`noAccount` without touching the store, and the sweep fails the same post. -/
theorem c5_witness :
    (let stC5 : Store :=
      { posts := [post0], accounts := [acctNoTok], topics := [],
        schedules := [], nextId := 2 }
     publishNow stC5 0 (.ok "tid") 100 = (stC5, .noAccount, false) ∧
     sweepStep [acctNoTok] (fun _ => .ok "tid") 100 100 post0 =
       ({ post0 with
            status := .FAILED,
            error := some "No valid Threads account configured" }, false)) := by
  refine ⟨?_, ?_⟩
  · exact (c5_publish_fail_fast_without_credential _ 0 (.ok "tid") 100 post0
      (by decide) (by decide)).1
  · exact (c5_publish_fail_fast_without_credential
      { posts := [post0], accounts := [acctNoTok], topics := [],
        schedules := [], nextId := 2 } 0 (.ok "tid") 100 post0
      (by decide) (by decide)).2 [acctNoTok] (fun _ => .ok "tid") 100 100 post0
      (by decide) (by decide)

/-! ## C1 — the §4.3 state machine is not enforced by the API -/

/-- C1 as stated is refuted: `DRAFT → PUBLISHED` is not an edge of the §4.3
state machine, yet creating a `DRAFT` post and bulk-setting its status to
`PUBLISHED` succeeds and changes the status — the transition is neither
rejected nor does it leave the status unchanged. -/
theorem c1_counterexample :
    specLegalEdge .DRAFT .PUBLISHED = false ∧
    ((applyOps [.create 1 none "hi" none .DRAFT none, .bulk [0] .PUBLISHED]
        emptyStore).posts.map (fun p => p.status)) = [.PUBLISHED] := by
  refine ⟨by decide, by decide⟩

/-- C1 amended: the API performs no transition validation at all —
`update` and `bulk-status` apply any requested status to any post regardless
of its current status (including transitions that are not §4.3 edges), and
`approve`, `reject` and `schedule` unconditionally overwrite the status with
`APPROVED`, `REJECTED` and `SCHEDULED` respectively from any state. -/
theorem c1_no_transition_validation
    (st : Store) (ids : List Nat) (s : PostStatus) (p : Post)
    (hp : p ∈ st.posts) (hin : ids.contains p.id = true)
    (hillegal : specLegalEdge p.status s = false) :
    { p with status := s } ∈ (bulkStatus st ids s).posts ∧
    (∀ u : PostUpdate, u.status = some s →
      (applyPostUpdate u p).status = s ∧
      applyPostUpdate u p ∈ (updatePost st p.id u).posts) ∧
    { p with status := .APPROVED } ∈ (approvePost st p.id).posts ∧
    { p with status := .REJECTED } ∈ (rejectPost st p.id).posts ∧
    (∀ scheduledAt accountId : Nat,
      { p with
          status := .SCHEDULED,
          scheduledAt := some scheduledAt,
          accountId := some accountId }
        ∈ (schedulePost st p.id scheduledAt accountId).posts) := by
  have hmem : p.id ∈ ids := by simpa using hin
  refine ⟨?_, ?_, ?_, ?_, ?_⟩
  · exact List.mem_map.mpr ⟨p, hp, by simp [bulkStatus, hmem]⟩
  · intro u hu
    refine ⟨by simp [applyPostUpdate, hu], ?_⟩
    exact List.mem_map.mpr ⟨p, hp, by simp [updatePost, updatePostRow]⟩
  · exact List.mem_map.mpr ⟨p, hp, by simp [approvePost, updatePostRow]⟩
  · exact List.mem_map.mpr ⟨p, hp, by simp [rejectPost, updatePostRow]⟩
  · intro scheduledAt accountId
    exact List.mem_map.mpr ⟨p, hp, by simp [schedulePost, updatePostRow]⟩

/-- Witness for the amended C1: a `PUBLISHED` post (no §4.3 edge leaves
`PUBLISHED`) is still rewritten to `DRAFT` by bulk-status and by update, to
`APPROVED` by approve, to `REJECTED` by reject, and to `SCHEDULED` by
schedule. -/
theorem c1_witness :
    (let pPub : Post := { post0 with status := .PUBLISHED }
     let stC1 : Store :=
      { posts := [pPub], accounts := [], topics := [], schedules := [],
        nextId := 1 }
     specLegalEdge .PUBLISHED .DRAFT = false ∧
     ({ pPub with status := .DRAFT } ∈ (bulkStatus stC1 [0] .DRAFT).posts ∧
      (∀ u : PostUpdate, u.status = some .DRAFT →
        (applyPostUpdate u pPub).status = .DRAFT ∧
        applyPostUpdate u pPub ∈ (updatePost stC1 0 u).posts) ∧
      { pPub with status := .APPROVED } ∈ (approvePost stC1 0).posts ∧
      { pPub with status := .REJECTED } ∈ (rejectPost stC1 0).posts ∧
      (∀ scheduledAt accountId : Nat,
        { pPub with
            status := .SCHEDULED,
            scheduledAt := some scheduledAt,
            accountId := some accountId }
          ∈ (schedulePost stC1 0 scheduledAt accountId).posts))) := by
  refine ⟨by decide, ?_⟩
  exact c1_no_transition_validation _ [0] .DRAFT _ (by decide) (by decide) (by decide)

/-! ## C2 — the `publishedAt`/`error` field invariant -/

/-- C2 as stated is refuted: a reachable state violates the invariant.
Creating a `DRAFT` post (null `publishedAt`) and bulk-setting its status to
`PUBLISHED` yields a post with status `PUBLISHED` and `publishedAt = null`. -/
theorem c2_counterexample :
    ¬ (∀ p ∈ (applyOps [.create 1 none "hi" none .DRAFT none, .bulk [0] .PUBLISHED]
        emptyStore).posts, postFieldInvariant p) := by
  decide

/-- C2 amended: the publish pipeline maintains the invariant on the posts it
updates — a successful "publish now" sets `publishedAt` with status
`PUBLISHED` and a failed one records the error with status `FAILED`, and a
sweep-processed due post likewise ends `PUBLISHED` only with `publishedAt`
set and `FAILED` only with `error` set — but the status-setting endpoints
(here `bulk-status`) change the status while leaving `publishedAt` and
`error` untouched, so the biconditional does not hold in every reachable
state. -/
theorem c2_publish_pipeline_maintains_fields
    (st : Store) (id : Nat) (now : Nat) (tid m : String) (p : Post)
    (hfind : st.posts.find? (fun q => q.id == id) = some p)
    (hcred : credentialOk (resolveAccount st.accounts p) = true) :
    (∀ q ∈ (publishNow st id (.ok tid) now).1.posts, q.id = id →
      q.status = .PUBLISHED ∧ q.publishedAt = some now) ∧
    (∀ q ∈ (publishNow st id (.err m) now).1.posts, q.id = id →
      q.status = .FAILED ∧ q.error = some m) ∧
    (∀ (accounts : List Account) (pub : Nat → PubResult) (pubTime now2 : Nat)
       (r : Post), isDue now2 r = true →
       ((sweepStep accounts pub pubTime now2 r).1.status = .PUBLISHED →
         (sweepStep accounts pub pubTime now2 r).1.publishedAt = some pubTime) ∧
       ((sweepStep accounts pub pubTime now2 r).1.status = .FAILED →
         (sweepStep accounts pub pubTime now2 r).1.error ≠ none)) ∧
    (∀ (ids : List Nat) (s : PostStatus),
      (bulkStatus st ids s).posts.map (fun q => (q.publishedAt, q.error))
        = st.posts.map (fun q => (q.publishedAt, q.error))) := by
  refine ⟨?_, ?_, ?_, ?_⟩
  · intro q hq hqid
    unfold publishNow at hq
    rw [hfind] at hq
    simp only [hcred, if_true] at hq
    unfold updatePostRow at hq
    obtain ⟨r, hr, hqr⟩ := List.mem_map.mp hq
    by_cases hrid : (r.id == id) = true
    · rw [if_pos hrid] at hqr
      exact ⟨by rw [← hqr], by rw [← hqr]⟩
    · rw [if_neg hrid] at hqr
      rw [← hqr] at hqid
      exact absurd (beq_iff_eq.mpr hqid) hrid
  · intro q hq hqid
    unfold publishNow at hq
    rw [hfind] at hq
    simp only [hcred, if_true] at hq
    unfold updatePostRow at hq
    obtain ⟨r, hr, hqr⟩ := List.mem_map.mp hq
    by_cases hrid : (r.id == id) = true
    · rw [if_pos hrid] at hqr
      exact ⟨by rw [← hqr], by rw [← hqr]⟩
    · rw [if_neg hrid] at hqr
      rw [← hqr] at hqid
      exact absurd (beq_iff_eq.mpr hqid) hrid
  · intro accounts pub pubTime now2 r hdue
    unfold sweepStep
    rw [if_pos hdue]
    by_cases hc : credentialOk (resolveAccount accounts r) = true
    · rw [if_pos hc]
      cases pub r.id with
      | ok tid2 => exact ⟨fun _ => rfl, fun h => absurd h (by simp)⟩
      | err m2 => exact ⟨fun h => absurd h (by simp), fun _ => by simp⟩
    · rw [if_neg hc]
      exact ⟨fun h => absurd h (by simp), fun _ => by simp⟩
  · intro ids s
    unfold bulkStatus
    rw [List.map_map]
    apply List.map_congr_left
    intro q _
    by_cases h : q.id ∈ ids
    · simp [h]
    · simp [h]

/-- Witness for the amended C2 at a concrete store: a successful publish of
one post sets `publishedAt` together with `PUBLISHED`. -/
theorem c2_witness :
    (let stC2 : Store :=
      { posts := [{ post0 with status := .APPROVED }],
        accounts := [acctExpiredTok], topics := [], schedules := [], nextId := 2 }
     ∀ q ∈ (publishNow stC2 0 (.ok "tid") 77).1.posts, q.id = 0 →
       q.status = .PUBLISHED ∧ q.publishedAt = some 77) := by
  exact (c2_publish_pipeline_maintains_fields _ 0 77 "tid" "m"
    { post0 with status := .APPROVED } (by decide) (by decide)).1

/-! ## C7 — sweep-and-publish is idempotent over one batch of due posts -/

/-- C7: running the sweep twice in immediate succession publishes each due
post at most once.  Every post due at the first sweep leaves `SCHEDULED`
(ending `PUBLISHED` or `FAILED`), so at any later sweep the row is no longer
due, the second sweep returns it unchanged and invokes no network call for
it. -/
theorem c7_second_sweep_skips_first_batch
    (accounts : List Account) (pub : Nat → PubResult) (pubTime now : Nat)
    (accounts2 : List Account) (pub2 : Nat → PubResult) (pubTime2 now2 : Nat)
    (posts : List Post) (i : Nat) (p : Post)
    (hp : posts[i]? = some p) (hdue : isDue now p = true) :
    ∃ q : Post, (sweepPosts accounts pub pubTime now posts)[i]? = some q ∧
      isDue now2 q = false ∧
      sweepStep accounts2 pub2 pubTime2 now2 q = (q, false) := by
  refine ⟨(sweepStep accounts pub pubTime now p).1, ?_, ?_, ?_⟩
  · unfold sweepPosts
    rw [List.getElem?_map, hp]
    rfl
  · apply isDue_eq_false_of_status
    rcases sweepStep_status_of_due accounts pub pubTime now p hdue with h | h <;>
      rw [h] <;> intro hc <;> exact absurd hc (by decide)
  · apply sweepStep_not_due
    apply isDue_eq_false_of_status
    rcases sweepStep_status_of_due accounts pub pubTime now p hdue with h | h <;>
      rw [h] <;> intro hc <;> exact absurd hc (by decide)

/-- Witness for C7: a concrete due post is published by the first sweep and
the second sweep leaves it untouched without a network call. -/
theorem c7_witness :
    ∃ q : Post,
      (sweepPosts [acctExpiredTok] (fun _ => .ok "tid") 100 100 [post0])[0]? = some q ∧
      isDue 101 q = false ∧
      sweepStep [acctExpiredTok] (fun _ => .ok "tid") 101 101 q = (q, false) := by
  exact c7_second_sweep_skips_first_batch [acctExpiredTok] (fun _ => .ok "tid")
    100 100 [acctExpiredTok] (fun _ => .ok "tid") 101 101 [post0] 0 post0
    (by decide) (by decide)

/-! ## C6 — one generation cycle per matching schedule -/

/-- C6: for an active schedule whose `postingTimes` contains the current UTC
hour-slot, one generation cycle (trending topic found, generation succeeds)
creates exactly one post whose topic is the selected topic's title; with
`autoApprove = false` the post is `PENDING` with no `scheduledAt`, with
`autoApprove = true` it is `SCHEDULED` with `scheduledAt` between `now` and
`now + 10` minutes. -/
theorem c6_generation_cycle_creates_one_post
    (now utcHour : Nat) (s : Schedule) (t : TrendingTopic) (content : String)
    (choice : Nat → TopicChoice) (gen : Nat → Option String) (rnd : Nat → Nat)
    (st : Store) (hsch : st.schedules = [s]) (hact : s.active = true)
    (hslot : s.postingTimes.contains (hourSlot utcHour) = true)
    (hchoice : choice s.id = .trending t) (hgen : gen s.id = some content) :
    ∃ p : Post,
      (applyTick (.generateT now utcHour choice gen rnd) st).posts
        = st.posts ++ [p] ∧
      p.topic = some t.title ∧
      p.personaId = s.personaId ∧ p.accountId = some s.accountId ∧
      p.content = content ∧
      (s.autoApprove = false → p.status = .PENDING ∧ p.scheduledAt = none) ∧
      (s.autoApprove = true → p.status = .SCHEDULED ∧
        ∃ ts : Nat, p.scheduledAt = some ts ∧ now ≤ ts ∧ ts ≤ now + 10 * 60 * 1000) := by
  refine ⟨generateAndSavePost now (rnd s.id) content st.nextId s t.title (some t.title),
    ?_, ?_, rfl, rfl, rfl, ?_, ?_⟩
  · show (generateTick now utcHour choice gen rnd st).posts = _
    unfold generateTick
    have hsel : selectedSchedules utcHour st.schedules = [s] := by
      rw [hsch]
      unfold selectedSchedules
      rw [List.filter_cons, if_pos (by rw [hact, hslot]; rfl)]
      rfl
    rw [hsel]
    show (generateStep now choice gen rnd st s).posts = _
    unfold generateStep
    rw [hchoice, hgen]
    rfl
  · show some (jsOrStr (some t.title) t.title) = some t.title
    show some (if t.title.isEmpty = true then t.title else t.title) = some t.title
    rw [ite_self]
  · intro hauto
    unfold generateAndSavePost
    rw [hauto]
    exact ⟨rfl, rfl⟩
  · intro hauto
    unfold generateAndSavePost
    rw [hauto]
    refine ⟨rfl, now + (rnd s.id % 10) * 60 * 1000, rfl, Nat.le_add_right _ _, ?_⟩
    have h9 : rnd s.id % 10 ≤ 9 := Nat.lt_succ_iff.mp (Nat.mod_lt _ (by decide))
    omega

/-- Witness for C6 at a concrete auto-approving schedule: the tick creates
exactly one `SCHEDULED` post with the trending topic's title and a
`scheduledAt` within ten minutes of `now`. -/
theorem c6_witness :
    (let schedC6 : Schedule :=
      { id := 3, personaId := 1, accountId := 1, postsPerDay := 3,
        postingTimes := ["09:00", "15:00", "21:00"], autoApprove := true,
        active := true }
     let trendC6 : TrendingTopic :=
      { title := "Alpha", source := "google", url := none, score := none,
        description := none }
     let stC6 : Store :=
      { posts := [], accounts := [], topics := [], schedules := [schedC6],
        nextId := 0 }
     ∃ p : Post,
       (applyTick (.generateT 1000 15 (fun _ => .trending trendC6)
           (fun _ => some "text") (fun _ => 7)) stC6).posts = stC6.posts ++ [p] ∧
       p.topic = some "Alpha" ∧
       p.personaId = 1 ∧ p.accountId = some 1 ∧
       p.content = "text" ∧
       (true = false → p.status = .PENDING ∧ p.scheduledAt = none) ∧
       (true = true → p.status = .SCHEDULED ∧
         ∃ ts : Nat, p.scheduledAt = some ts ∧ 1000 ≤ ts ∧
           ts ≤ 1000 + 10 * 60 * 1000)) := by
  exact c6_generation_cycle_creates_one_post 1000 15
    { id := 3, personaId := 1, accountId := 1, postsPerDay := 3,
      postingTimes := ["09:00", "15:00", "21:00"], autoApprove := true,
      active := true }
    { title := "Alpha", source := "google", url := none, score := none,
      description := none }
    "text"
    (fun _ => .trending
      { title := "Alpha", source := "google", url := none,
        score := none, description := none })
    (fun _ => some "text") (fun _ => 7)
    { posts := [], accounts := [], topics := [],
      schedules :=
        [{ id := 3, personaId := 1, accountId := 1, postsPerDay := 3,
           postingTimes := ["09:00", "15:00", "21:00"], autoApprove := true,
           active := true }],
      nextId := 0 }
    rfl rfl (by decide) rfl rfl

/-! ## C8 — a FAILED post is never retried by the scheduler -/

/-- The trend-sync tick never touches the post table. -/
theorem syncTrendingTopics_posts (now : Nat) (trends : List TrendingTopic)
    (st : Store) : (syncTrendingTopics now trends st).posts = st.posts := by
  induction trends generalizing st with
  | nil => rfl
  | cons tr rest ih =>
    show (syncTrendingTopics now rest (syncOneTrend now st tr)).posts = st.posts
    rw [ih]
    unfold syncOneTrend
    split <;> rfl

/-- The generation tick only appends posts; the existing rows are a prefix
of the resulting table. -/
theorem generateFold_posts_append (now : Nat) (choice : Nat → TopicChoice)
    (gen : Nat → Option String) (rnd : Nat → Nat) (l : List Schedule) :
    ∀ acc : Store, ∃ tail : List Post,
      (l.foldl (generateStep now choice gen rnd) acc).posts = acc.posts ++ tail := by
  induction l with
  | nil => exact fun acc => ⟨[], (List.append_nil _).symm⟩
  | cons s rest ih =>
    intro acc
    rw [List.foldl_cons]
    cases h : generateForSchedule now (choice s.id) (gen s.id) (rnd s.id)
        acc.nextId s with
    | none =>
      have hstep : generateStep now choice gen rnd acc s = acc := by
        unfold generateStep
        rw [h]
      rw [hstep]
      exact ih acc
    | some p =>
      have hstep : generateStep now choice gen rnd acc s
          = { acc with posts := acc.posts ++ [p], nextId := acc.nextId + 1 } := by
        unfold generateStep
        rw [h]
      rw [hstep]
      obtain ⟨tail, htail⟩ := ih
        { acc with posts := acc.posts ++ [p], nextId := acc.nextId + 1 }
      exact ⟨p :: tail, by rw [htail]; simp⟩

/-- Any single scheduler tick leaves a `FAILED` post row exactly where and
as it was. -/
theorem applyTick_preserves_failed (tick : Tick) (st : Store) (i : Nat)
    (p : Post) (hp : st.posts[i]? = some p) (hf : p.status = .FAILED) :
    (applyTick tick st).posts[i]? = some p := by
  have hlt : i < st.posts.length := (List.getElem?_eq_some.mp hp).1
  have hnotdue : ∀ now : Nat, isDue now p = false := fun now =>
    isDue_eq_false_of_status now p (by rw [hf]; decide)
  cases tick with
  | sweepT pub pubTime now =>
    show (sweepPosts st.accounts pub pubTime now st.posts)[i]? = some p
    unfold sweepPosts
    rw [List.getElem?_map, hp]
    show some (sweepStep st.accounts pub pubTime now p).1 = some p
    rw [sweepStep_not_due st.accounts pub pubTime now p (hnotdue now)]
  | generateT now utcHour choice gen rnd =>
    show (generateTick now utcHour choice gen rnd st).posts[i]? = some p
    obtain ⟨tail, htail⟩ := generateFold_posts_append now choice gen rnd
      (selectedSchedules utcHour st.schedules) st
    unfold generateTick
    rw [htail, List.getElem?_append, if_pos hlt]
    exact hp
  | syncT now trends =>
    show (syncTrendingTopics now trends st).posts[i]? = some p
    rw [syncTrendingTopics_posts]
    exact hp
  | refreshT now refresh => exact hp
  | cleanupT now => exact hp

/-- Scheduler ticks compose: a `FAILED` row survives every sequence. -/
theorem applyTicks_preserves_failed (ticks : List Tick) :
    ∀ (st : Store) (i : Nat) (p : Post), st.posts[i]? = some p →
      p.status = .FAILED → (applyTicks ticks st).posts[i]? = some p := by
  induction ticks with
  | nil => exact fun st i p hp _ => hp
  | cons tk rest ih =>
    intro st i p hp hf
    exact ih (applyTick tk st) i p (applyTick_preserves_failed tk st i p hp hf) hf

/-- C8: a post that has reached `FAILED` is never again attempted by the
scheduler: across any sequence of scheduler ticks the row is left untouched
(in particular it never re-enters `SCHEDULED`), the sweep only ever selects
posts whose status is `SCHEDULED`, and a sweep pass over the failed post
returns it unchanged without a network call. -/
theorem c8_failed_post_never_retried (ticks : List Tick) (st : Store)
    (i : Nat) (p : Post) (hp : st.posts[i]? = some p)
    (hf : p.status = .FAILED) :
    (applyTicks ticks st).posts[i]? = some p ∧
    (∀ (now : Nat) (q : Post), isDue now q = true → q.status = .SCHEDULED) ∧
    (∀ (accounts : List Account) (pub : Nat → PubResult) (pubTime now : Nat),
      sweepStep accounts pub pubTime now p = (p, false)) := by
  refine ⟨applyTicks_preserves_failed ticks st i p hp hf, ?_, ?_⟩
  · intro now q hdue
    unfold isDue at hdue
    exact beq_iff_eq.mp ((Bool.and_eq_true _ _).mp hdue).1
  · intro accounts pub pubTime now
    exact sweepStep_not_due accounts pub pubTime now p
      (isDue_eq_false_of_status now p (by rw [hf]; decide))

/-- Witness for C8: a concrete `FAILED` post survives a sweep, a generation
tick and a cleanup tick untouched, and a direct sweep pass over it makes no
call. -/
theorem c8_witness :
    (let pFail : Post := { post0 with status := .FAILED, error := some "boom" }
     let stC8 : Store :=
      { posts := [pFail], accounts := [acctExpiredTok], topics := [],
        schedules := [], nextId := 1 }
     let ticksC8 : List Tick :=
      [.sweepT (fun _ => .ok "tid") 100 100,
       .generateT 100 15 (fun _ => .noneAvailable) (fun _ => none) (fun _ => 0),
       .cleanupT 100]
     (applyTicks ticksC8 stC8).posts[0]? = some pFail ∧
     (∀ (now : Nat) (q : Post), isDue now q = true → q.status = .SCHEDULED) ∧
     (∀ (accounts : List Account) (pub : Nat → PubResult) (pubTime now : Nat),
       sweepStep accounts pub pubTime now pFail = (pFail, false))) := by
  exact c8_failed_post_never_retried _ _ 0
    { post0 with status := .FAILED, error := some "boom" } (by decide) (by decide)

/-! ## C3 — topic selection avoids excluded titles, with relaxation -/

/-- A top-5 candidate is one of the scored candidates (the sort is a
permutation and `take` only drops elements). -/
theorem mem_scored_of_mem_top (persona : Persona) (available : List TrendingTopic)
    (pr : TrendingTopic × Rat) (h : pr ∈ topCandidates persona available) :
    pr ∈ scoredCandidates persona available :=
  (List.perm_insertionSort _ _).mem_iff.mp (List.take_subset _ _ h)

/-- C3: when topic selection returns a topic, either the post-filter pool was
non-empty and the returned topic's title matches no excluded title (in either
direction, case-insensitively), or filtering emptied the pool and the
returned topic is the top (head) of the pre-filter ranked pool. -/
theorem c3_topic_selection_avoids_exclusions
    (persona : Persona) (excludeTitles : List String)
    (trends : List TrendingTopic) (rnd : Nat) (t : TrendingTopic)
    (h : getBestTopicForPersona persona excludeTitles trends rnd = some t) :
    (filterExcluded excludeTitles trends ≠ [] ∧
      ∀ e ∈ excludeTitles, matchesExclusion t.title e = false) ∨
    (filterExcluded excludeTitles trends = [] ∧ trends.head? = some t) := by
  unfold getBestTopicForPersona at h
  by_cases h0 : trends.isEmpty = true
  · rw [if_pos h0] at h
    exact absurd h (by simp)
  · rw [if_neg h0] at h
    by_cases h1 : (filterExcluded excludeTitles trends).isEmpty = true
    · rw [if_pos h1] at h
      exact Or.inr ⟨List.isEmpty_iff.mp h1, h⟩
    · rw [if_neg h1] at h
      left
      refine ⟨fun hnil => h1 (by rw [hnil]; rfl), ?_⟩
      obtain ⟨pr, hpr, hprt⟩ := Option.map_eq_some'.mp h
      have hmem : pr ∈ scoredCandidates persona (filterExcluded excludeTitles trends) :=
        mem_scored_of_mem_top persona _ pr (List.getElem?_mem hpr)
      obtain ⟨u, hu, hupr⟩ := List.mem_map.mp hmem
      have htu : t = u := by rw [← hprt, ← hupr]
      subst htu
      have hfilt := (List.mem_filter.mp hu).2
      rw [Bool.not_eq_true'] at hfilt
      intro e he
      by_contra hme
      rw [Bool.not_eq_false] at hme
      have : (excludeTitles.any fun e => matchesExclusion t.title e) = true :=
        List.any_eq_true.mpr ⟨e, he, hme⟩
      rw [this] at hfilt
      exact absurd hfilt (by decide)

/-- Witness for C3: selection on a one-element pool with a non-matching
exclusion list returns that topic, and the guarantee instantiates. -/
theorem c3_witness :
    (let trendC3 : TrendingTopic :=
      { title := "Alpha", source := "google", url := none, score := none,
        description := none }
     let personaC3 : Persona := { name := "n", occupation := none, style := "s" }
     getBestTopicForPersona personaC3 ["zzz"] [trendC3] 0 = some trendC3 ∧
     ((filterExcluded ["zzz"] [trendC3] ≠ [] ∧
        ∀ e ∈ ["zzz"], matchesExclusion trendC3.title e = false) ∨
      (filterExcluded ["zzz"] [trendC3] = [] ∧
        ([trendC3] : List TrendingTopic).head? = some trendC3))) := by
  refine ⟨by decide, ?_⟩
  exact c3_topic_selection_avoids_exclusions
    { name := "n", occupation := none, style := "s" } ["zzz"]
    [{ title := "Alpha", source := "google", url := none, score := none,
       description := none }] 0
    { title := "Alpha", source := "google", url := none, score := none,
      description := none } (by decide)

end Ghostwriter
